import Mathlib

/-!
Verification development for the deterministic financial-statement
verification engine (`src/lib/verification-engine.ts` together with the data
model of `src/lib/extraction-types.ts`).

Monetary amounts (JavaScript `number`s) are embedded as rationals `ℚ`.
JavaScript `Math.round` (round half toward positive infinity) is embedded as
`jround`.  The impure ingredients of the engine — `Date.now()`,
`Math.random().toString(36).substr(2, 6)` and `new Date().toISOString()` —
are modelled by an explicit environment value `GenEnv` passed to every
function that calls them; the engine never branches on these values, it only
copies them into `id` / `timestamp` fields.
-/

/-- JavaScript `Math.round`: rounds to the nearest integer, halves toward
positive infinity. -/
def jround (x : ℚ) : ℤ := ⌊x + 1/2⌋

-- ============================================================================
-- Core arithmetic functions (verification-engine.ts lines 33-96)
-- ============================================================================

/-- Embedding of `preciseSum`: convert each number to integer cents with
`Math.round(num * 100)`, accumulate with `reduce` starting from `0`, and
divide the integer total by `100`. -/
def preciseSum (numbers : List ℚ) : ℚ :=
  ((numbers.foldl (fun acc num => acc + jround (num * 100)) 0 : ℤ) : ℚ) / 100

/-- Embedding of `calculateVariance`:
`Math.abs(Math.round((calculated - stated) * 100) / 100)`. -/
def calculateVariance (calculated stated : ℚ) : ℚ :=
  |((jround ((calculated - stated) * 100) : ℚ) / 100)|

/-- Embedding of `calculateVariancePercentage`. -/
def calculateVariancePercentage (variance stated : ℚ) : ℚ :=
  if stated = 0 then (if variance = 0 then 0 else 100)
  else ((jround ((variance / |stated|) * 10000) : ℚ)) / 100

/-- Verification status enumeration (`VerificationStatus`). -/
inductive VerificationStatus where
  | pass
  | fail
  | warning
  | needsReview
  deriving DecidableEq, Repr

/-- Exception severity enumeration. -/
inductive Severity where
  | high
  | medium
  | low
  deriving DecidableEq, Repr

/-- Embedding of `determineStatus`: any nonzero variance is a failure. -/
def determineStatus (variance : ℚ) : VerificationStatus :=
  if variance = 0 then VerificationStatus.pass else VerificationStatus.fail

/-- Embedding of `determineSeverity`. -/
def determineSeverity (variance : ℚ) : Severity :=
  if |variance| ≥ 10000 then Severity.high
  else if |variance| ≥ 1000 then Severity.medium
  else Severity.low

/-- Group a reversed digit list in blocks of three, inserting a comma between
blocks — the digit-grouping step of `toLocaleString('en-MY')`. -/
def groupRev : List Char → List Char
  | c1 :: c2 :: c3 :: c4 :: rest => c1 :: c2 :: c3 :: ',' :: groupRev (c4 :: rest)
  | l => l

/-- Render a natural number in decimal with thousands separators. -/
def commaGroup (n : ℕ) : String :=
  String.mk ((groupRev (toString n).data.reverse).reverse)

/-- Embedding of `formatRM`: absolute value rounded to 0 decimals with
thousands separators, prefixed by `RM`; negative amounts parenthesized. -/
def formatRM (amount : ℚ) : String :=
  let absAmount := |amount|
  let formatted := commaGroup (jround absAmount).toNat
  if amount < 0 then "(RM " ++ formatted ++ ")" else "RM " ++ formatted

/-- Ambient impure values consumed by the engine: `Date.now()` (`nowMs`), the
random base-36 suffix of `Math.random()` (`rand`) and
`new Date().toISOString()` (`iso`). -/
structure GenEnv where
  nowMs : ℕ
  rand : String
  iso : String
  deriving DecidableEq, Repr

/-- Embedding of `generateId`: `prefix_Date.now()_randomsuffix`. -/
def generateId (env : GenEnv) (pre : String) : String :=
  pre ++ "_" ++ toString env.nowMs ++ "_" ++ env.rand

-- ============================================================================
-- Extraction data model (extraction-types.ts)
-- ============================================================================

/-- Statement types (`StatementType`). -/
inductive StatementType where
  | SOFP
  | SOCI
  | SOCE
  | SCF
  | NOTE
  deriving DecidableEq, Repr

/-- A monetary amount with current and optionally prior year values
(`AmountPair`). -/
structure AmountPair where
  current : ℚ
  prior : Option ℚ := none
  deriving DecidableEq, Repr

/-- A single extracted line item (`ExtractedLineItem`). -/
structure ExtractedLineItem where
  label : String
  noteRef : Option String := none
  current : ℚ
  prior : Option ℚ := none
  isSubtotal : Bool
  isTotal : Bool
  indent : Option ℕ := none
  pageNumber : Option ℕ := none
  deriving DecidableEq, Repr

/-- A section within a statement (`ExtractedSection`). -/
structure ExtractedSection where
  name : String
  items : List ExtractedLineItem
  subtotal : Option AmountPair := none
  deriving DecidableEq, Repr

/-- Reporting period of a statement (the inline `period` object). -/
structure StatementPeriod where
  current : String
  prior : Option String := none
  deriving DecidableEq, Repr

/-- A complete extracted financial statement (`ExtractedStatement`). -/
structure ExtractedStatement where
  statementType : StatementType
  title : String
  pageNumbers : List ℕ
  period : StatementPeriod
  currency : String
  sections : List ExtractedSection
  totalAssets : Option AmountPair := none
  totalLiabilities : Option AmountPair := none
  totalEquity : Option AmountPair := none
  revenue : Option AmountPair := none
  profitBeforeTax : Option AmountPair := none
  profitAfterTax : Option AmountPair := none
  totalComprehensiveIncome : Option AmountPair := none
  deriving DecidableEq, Repr

/-- One addition or deduction line of a movement (the inline
`{description, amount}` objects). -/
structure MovementLine where
  description : String
  amount : ℚ
  deriving DecidableEq, Repr

/-- Movement reconciliation data (`ExtractedMovement`). -/
structure ExtractedMovement where
  accountName : String
  noteRef : Option String := none
  opening : ℚ
  additions : List MovementLine
  deductions : List MovementLine
  statedClosing : ℚ
  pageNumber : Option ℕ := none
  deriving DecidableEq, Repr

/-- Sign convention tag for cross-references. -/
inductive SignConvention where
  | positive
  | negative
  deriving DecidableEq, Repr

/-- Mapping type tag for cross-references. -/
inductive MappingType where
  | totalToTotal
  | componentToComponent
  | componentToTotal
  | uncertain
  deriving DecidableEq, Repr

/-- Cross-reference relationship between a note and a statement line
(`ExtractedCrossReference`). -/
structure ExtractedCrossReference where
  noteRef : String
  noteDescription : String
  noteTotal : ℚ
  statementLineItem : String
  statementAmount : ℚ
  statementType : StatementType
  pageNumberNote : Option ℕ := none
  pageNumberStatement : Option ℕ := none
  isExpenseOrDeduction : Option Bool := none
  signConventionNote : Option SignConvention := none
  signConventionStatement : Option SignConvention := none
  mappingConfidence : Option ℕ := none
  mappingType : Option MappingType := none
  deriving DecidableEq, Repr

/-- A casting relationship (`ExtractedCastingRelationship`). -/
structure ExtractedCastingRelationship where
  totalLabel : String
  totalAmount : ℚ
  componentLabels : List String
  componentAmounts : List ℚ
  «section» : String
  pageNumber : Option ℕ := none
  deriving DecidableEq, Repr

/-- Warning type enumeration for extraction warnings. -/
inductive WarningType where
  | ambiguousAmount
  | unclearRelationship
  | possibleOcrError
  | missingData
  | conflictingValues
  deriving DecidableEq, Repr

/-- Items flagged for human review (`ExtractionWarning`). -/
structure ExtractionWarning where
  type : WarningType
  location : String
  description : String
  confidence : ℕ
  suggestedValue : Option ℚ := none
  pageNumber : Option ℕ := none
  deriving DecidableEq, Repr

/-- Complete extraction result (`ExtractionResult`). -/
structure ExtractionResult where
  companyName : String
  financialYearEnd : String
  reportingCurrency : String
  extractedAt : String
  statements : List ExtractedStatement
  movements : List ExtractedMovement
  crossReferences : List ExtractedCrossReference
  castingRelationships : List ExtractedCastingRelationship
  warnings : List ExtractionWarning
  overallConfidence : ℕ
  deriving DecidableEq, Repr

-- ============================================================================
-- Verification result types (extraction-types.ts lines 175-332)
-- ============================================================================

/-- Check type enumeration for casting results. -/
inductive CheckType where
  | vertical
  | horizontal
  | crossReference
  | balanceEquation
  deriving DecidableEq, Repr

/-- One component of a casting check (the inline `{label, amount}` object). -/
structure CastingComponent where
  label : String
  amount : ℚ
  deriving DecidableEq, Repr

/-- Result of a single casting verification (`CastingVerificationResult`). -/
structure CastingVerificationResult where
  id : String
  checkType : CheckType
  «section» : String
  description : String
  components : List CastingComponent
  calculatedTotal : ℚ
  statedTotal : ℚ
  variance : ℚ
  variancePercentage : ℚ
  status : VerificationStatus
  verifiedBy : String
  timestamp : String
  deriving DecidableEq, Repr

/-- Result of balance sheet equation verification
(`BalanceSheetVerificationResult`). -/
structure BalanceSheetVerificationResult where
  id : String
  checkType : CheckType
  totalAssets : ℚ
  totalLiabilities : ℚ
  totalEquity : ℚ
  calculatedLiabilitiesPlusEquity : ℚ
  variance : ℚ
  status : VerificationStatus
  verifiedBy : String
  timestamp : String
  deriving DecidableEq, Repr

/-- Result of movement reconciliation verification
(`MovementVerificationResult`). -/
structure MovementVerificationResult where
  id : String
  checkType : CheckType
  accountName : String
  opening : ℚ
  totalAdditions : ℚ
  totalDeductions : ℚ
  calculatedClosing : ℚ
  statedClosing : ℚ
  variance : ℚ
  status : VerificationStatus
  verifiedBy : String
  timestamp : String
  deriving DecidableEq, Repr

/-- Result of cross-reference verification
(`CrossReferenceVerificationResult`).  The optional sign-aware fields are
declared in the interface but never assigned by `verifyCrossReference`, so
they are `none` in every produced result. -/
structure CrossReferenceVerificationResult where
  id : String
  checkType : CheckType
  noteRef : String
  noteDescription : String
  noteAmount : ℚ
  statementAmount : ℚ
  variance : ℚ
  status : VerificationStatus
  isSignDifferenceOnly : Option Bool := none
  absoluteVariance : Option ℚ := none
  signExplanation : Option String := none
  mappingConfidence : Option ℕ := none
  mappingType : Option String := none
  isPossibleWrongMapping : Option Bool := none
  verifiedBy : String
  timestamp : String
  deriving DecidableEq, Repr

/-- Exception type enumeration (the `type` union of
`VerificationException`). -/
inductive ExceptionType where
  | castingError
  | crossReferenceMismatch
  | balanceSheetImbalance
  | movementReconciliationError
  | requiresHumanReview
  deriving DecidableEq, Repr

/-- Exception found during verification (`VerificationException`). -/
structure VerificationException where
  id : ℕ
  type : ExceptionType
  location : String
  description : String
  statedAmount : ℚ
  calculatedAmount : ℚ
  difference : ℚ
  severity : Severity
  recommendation : String
  relatedCheckId : String
  deriving DecidableEq, Repr

/-- Summary KPI counters of a `VerificationResult`. -/
structure VerificationKpi where
  totalChecks : ℕ
  passed : ℕ
  failed : ℕ
  warnings : ℕ
  needsReview : ℕ
  passRate : ℚ
  exceptionsCount : ℕ
  highSeverity : ℕ
  mediumSeverity : ℕ
  lowSeverity : ℕ
  deriving DecidableEq, Repr

/-- One audit conclusion line item. -/
structure ConclusionItem where
  priority : Severity
  note : String
  description : String
  deriving DecidableEq, Repr

/-- Complete verification result (`VerificationResult`). -/
structure VerificationResult where
  kpi : VerificationKpi
  castingResults : List CastingVerificationResult
  balanceSheetResult : Option BalanceSheetVerificationResult
  movementResults : List MovementVerificationResult
  crossReferenceResults : List CrossReferenceVerificationResult
  exceptions : List VerificationException
  needsHumanReview : List ExtractionWarning
  conclusionSummary : String
  conclusionItems : List ConclusionItem
  conclusionNote : String
  verifiedAt : String
  verificationMethod : String
  deriving DecidableEq, Repr

-- ============================================================================
-- Verifiers (verification-engine.ts lines 98-266)
-- ============================================================================

/-- Embedding of `verifyCasting` (the `section` parameter is renamed
`sectionLabel`: `section` is a Lean keyword). -/
def verifyCasting (env : GenEnv) (sectionLabel : String) (description : String)
    (components : List CastingComponent) (statedTotal : ℚ) :
    CastingVerificationResult :=
  let amounts := components.map (fun c => c.amount)
  let calculatedTotal := preciseSum amounts
  let variance := calculateVariance calculatedTotal statedTotal
  let variancePercentage := calculateVariancePercentage variance statedTotal
  let status := determineStatus variance
  { id := generateId env "cast"
    checkType := CheckType.vertical
    «section» := sectionLabel
    description := description
    components := components
    calculatedTotal := calculatedTotal
    statedTotal := statedTotal
    variance := variance
    variancePercentage := variancePercentage
    status := status
    verifiedBy := "code"
    timestamp := env.iso }

/-- Components built by `verifyAllCastings`:
`rel.componentLabels.map((label, i) => ({label, amount: rel.componentAmounts[i] || 0}))`.
Out-of-range indexing yields `undefined`, which `|| 0` turns into `0`; on
numbers `|| 0` only maps `0` (and `NaN`, unrepresentable here) to `0`, so on
rationals it is the identity and is embedded as `getD i 0`. -/
def castingComponents (rel : ExtractedCastingRelationship) : List CastingComponent :=
  (List.range rel.componentLabels.length).map (fun i =>
    { label := rel.componentLabels.getD i ""
      amount := rel.componentAmounts.getD i 0 })

/-- Embedding of `verifyAllCastings`. -/
def verifyAllCastings (env : GenEnv)
    (castingRelationships : List ExtractedCastingRelationship) :
    List CastingVerificationResult :=
  castingRelationships.map (fun rel =>
    verifyCasting env rel.«section» (rel.totalLabel ++ " calculation")
      (castingComponents rel) rel.totalAmount)

/-- Embedding of `verifyBalanceSheet`. -/
def verifyBalanceSheet (env : GenEnv)
    (totalAssets totalLiabilities totalEquity : ℚ) :
    BalanceSheetVerificationResult :=
  let calculatedLiabilitiesPlusEquity := preciseSum [totalLiabilities, totalEquity]
  let variance := calculateVariance totalAssets calculatedLiabilitiesPlusEquity
  let status := determineStatus variance
  { id := generateId env "bs"
    checkType := CheckType.balanceEquation
    totalAssets := totalAssets
    totalLiabilities := totalLiabilities
    totalEquity := totalEquity
    calculatedLiabilitiesPlusEquity := calculatedLiabilitiesPlusEquity
    variance := variance
    status := status
    verifiedBy := "code"
    timestamp := env.iso }

/-- Embedding of `verifyMovement`. -/
def verifyMovement (env : GenEnv) (movement : ExtractedMovement) :
    MovementVerificationResult :=
  let totalAdditions := preciseSum (movement.additions.map (fun a => a.amount))
  let totalDeductions := preciseSum (movement.deductions.map (fun d => d.amount))
  let calculatedClosing := preciseSum [movement.opening, totalAdditions, -totalDeductions]
  let variance := calculateVariance calculatedClosing movement.statedClosing
  let status := determineStatus variance
  { id := generateId env "mov"
    checkType := CheckType.horizontal
    accountName := movement.accountName
    opening := movement.opening
    totalAdditions := totalAdditions
    totalDeductions := totalDeductions
    calculatedClosing := calculatedClosing
    statedClosing := movement.statedClosing
    variance := variance
    status := status
    verifiedBy := "code"
    timestamp := env.iso }

/-- Embedding of `verifyAllMovements`. -/
def verifyAllMovements (env : GenEnv) (movements : List ExtractedMovement) :
    List MovementVerificationResult :=
  movements.map (verifyMovement env)

/-- Embedding of `verifyCrossReference`. -/
def verifyCrossReference (env : GenEnv) (crossRef : ExtractedCrossReference) :
    CrossReferenceVerificationResult :=
  let variance := calculateVariance crossRef.noteTotal crossRef.statementAmount
  let status := determineStatus variance
  { id := generateId env "xref"
    checkType := CheckType.crossReference
    noteRef := crossRef.noteRef
    noteDescription := crossRef.noteDescription
    noteAmount := crossRef.noteTotal
    statementAmount := crossRef.statementAmount
    variance := variance
    status := status
    verifiedBy := "code"
    timestamp := env.iso }

/-- Embedding of `verifyAllCrossReferences`. -/
def verifyAllCrossReferences (env : GenEnv)
    (crossReferences : List ExtractedCrossReference) :
    List CrossReferenceVerificationResult :=
  crossReferences.map (verifyCrossReference env)

-- ============================================================================
-- Exception generation (verification-engine.ts lines 268-362)
-- ============================================================================

/-- Embedding of `castingToException`. -/
def castingToException (result : CastingVerificationResult)
    (exceptionId : ℕ) : Option VerificationException :=
  if result.status = VerificationStatus.pass then none
  else some
    { id := exceptionId
      type := ExceptionType.castingError
      location := result.«section»
      description := result.description ++ ": Components sum to "
        ++ formatRM result.calculatedTotal ++ " but stated as "
        ++ formatRM result.statedTotal
      statedAmount := result.statedTotal
      calculatedAmount := result.calculatedTotal
      difference := result.variance
      severity := determineSeverity result.variance
      recommendation := "Verify the arithmetic in the source document and correct if necessary."
      relatedCheckId := result.id }

/-- Embedding of `balanceSheetToException`.  The severity is the hard-coded
`'high'`. -/
def balanceSheetToException (result : BalanceSheetVerificationResult)
    (exceptionId : ℕ) : Option VerificationException :=
  if result.status = VerificationStatus.pass then none
  else some
    { id := exceptionId
      type := ExceptionType.balanceSheetImbalance
      location := "Statement of Financial Position"
      description := "Balance sheet does not balance: Assets "
        ++ formatRM result.totalAssets ++ " ≠ Liabilities "
        ++ formatRM result.totalLiabilities ++ " + Equity "
        ++ formatRM result.totalEquity
      statedAmount := result.totalAssets
      calculatedAmount := result.calculatedLiabilitiesPlusEquity
      difference := result.variance
      severity := Severity.high
      recommendation := "Urgent: Balance sheet must balance. Review all totals for errors."
      relatedCheckId := result.id }

/-- Embedding of `movementToException`. -/
def movementToException (result : MovementVerificationResult)
    (exceptionId : ℕ) : Option VerificationException :=
  if result.status = VerificationStatus.pass then none
  else some
    { id := exceptionId
      type := ExceptionType.movementReconciliationError
      location := result.accountName ++ " Movement"
      description := "Movement does not reconcile: Opening "
        ++ formatRM result.opening ++ " + Additions "
        ++ formatRM result.totalAdditions ++ " - Deductions "
        ++ formatRM result.totalDeductions ++ " = "
        ++ formatRM result.calculatedClosing ++ ", but stated closing is "
        ++ formatRM result.statedClosing
      statedAmount := result.statedClosing
      calculatedAmount := result.calculatedClosing
      difference := result.variance
      severity := determineSeverity result.variance
      recommendation := "Review the movement schedule and verify all additions and deductions are captured."
      relatedCheckId := result.id }

/-- Embedding of `crossRefToException`. -/
def crossRefToException (result : CrossReferenceVerificationResult)
    (exceptionId : ℕ) : Option VerificationException :=
  if result.status = VerificationStatus.pass then none
  else some
    { id := exceptionId
      type := ExceptionType.crossReferenceMismatch
      location := result.noteRef
      description := result.noteDescription ++ ": Note shows "
        ++ formatRM result.noteAmount ++ " but statement shows "
        ++ formatRM result.statementAmount
      statedAmount := result.statementAmount
      calculatedAmount := result.noteAmount
      difference := result.variance
      severity := determineSeverity result.variance
      recommendation := "Verify that the note total agrees with the statement line item. May be a presentation or disclosure error."
      relatedCheckId := result.id }

-- ============================================================================
-- Orchestrator (verification-engine.ts lines 364-550)
-- ============================================================================

/-- One exception-collection loop of `runVerification`: for each result, run
the converter at the current `exceptionId`; push the exception and increment
the counter when one is produced. -/
def pushExcs {β : Type} (conv : β → ℕ → Option VerificationException)
    (acc : List VerificationException × ℕ) (l : List β) :
    List VerificationException × ℕ :=
  l.foldl (fun p r =>
    match conv r p.2 with
    | some ex => (p.1 ++ [ex], p.2 + 1)
    | none => p) acc

/-- Severity sort key used by `generateConclusionItems`
(`{high: 0, medium: 1, low: 2}`). -/
def severityOrder : Severity → ℕ
  | Severity.high => 0
  | Severity.medium => 1
  | Severity.low => 2

/-- Stable insertion of an exception after all entries with a key less than
or equal to its own — one step of the stable comparator sort used by
`generateConclusionItems`. -/
def insertBySeverity : List VerificationException → VerificationException →
    List VerificationException
  | [], x => [x]
  | y :: ys, x =>
    if severityOrder y.severity ≤ severityOrder x.severity then
      y :: insertBySeverity ys x
    else x :: y :: ys

/-- Stable sort of exceptions by severity (high first), embedding the stable
JavaScript `Array.prototype.sort` with the severity comparator. -/
def sortBySeverity (l : List VerificationException) : List VerificationException :=
  l.foldl insertBySeverity []

/-- Embedding of `generateConclusionSummary`. -/
def generateConclusionSummary (exceptions : List VerificationException)
    (totalChecks passed : ℕ) : String :=
  if exceptions.length = 0 then
    "The financial statements cast correctly with no exceptions. All "
      ++ toString totalChecks ++ " checks passed."
  else
    let highCount := (exceptions.filter (fun e => e.severity = Severity.high)).length
    let mediumCount := (exceptions.filter (fun e => e.severity = Severity.medium)).length
    let lowCount := (exceptions.filter (fun e => e.severity = Severity.low)).length
    let parts : List String :=
      (if highCount > 0 then [toString highCount ++ " high"] else [])
      ++ (if mediumCount > 0 then [toString mediumCount ++ " medium"] else [])
      ++ (if lowCount > 0 then [toString lowCount ++ " low"] else [])
    let summary := "The financial statements cast correctly subject to "
      ++ toString exceptions.length ++ " exception(s)"
    let summary := if parts.length > 0 then
        summary ++ " (" ++ String.intercalate ", " parts ++ " severity)"
      else summary
    summary ++ ". " ++ toString passed ++ "/" ++ toString totalChecks ++ " checks passed."

/-- Embedding of `generateConclusionItems`. -/
def generateConclusionItems (exceptions : List VerificationException) :
    List ConclusionItem :=
  (sortBySeverity exceptions).map (fun ex =>
    { priority := ex.severity
      note := ex.location
      description := "Stated " ++ formatRM ex.statedAmount ++ " vs Calculated "
        ++ formatRM ex.calculatedAmount ++ " → Δ " ++ formatRM ex.difference })

/-- Embedding of `generateConclusionNote`. -/
def generateConclusionNote
    (balanceSheetResult : Option BalanceSheetVerificationResult)
    (passed totalChecks : ℕ) : String :=
  let parts : List String :=
    (match balanceSheetResult with
     | some r =>
       if r.status = VerificationStatus.pass then
         ["Balance Sheet balances correctly (Assets = Liabilities + Equity)."]
       else
         ["WARNING: Balance Sheet does not balance - variance of "
           ++ formatRM r.variance ++ "."]
     | none => [])
    ++ (if passed = totalChecks then
          ["All arithmetic has been verified by deterministic code with 100% accuracy."]
        else
          [toString passed ++ " of " ++ toString totalChecks
            ++ " checks passed. Exceptions should be investigated."])
  String.intercalate " " parts

/-- The conditional balance-sheet step of `runVerification`: find the first
statement of type SOFP; when it carries all three totals (the JavaScript
truthiness test `sofp?.totalAssets && sofp?.totalLiabilities &&
sofp?.totalEquity` — an `AmountPair` object is always truthy), verify the
balance equation on the current-year amounts, otherwise skip. -/
def findBalanceSheetResult (env : GenEnv) (extraction : ExtractionResult) :
    Option BalanceSheetVerificationResult :=
  match extraction.statements.find? (fun s => s.statementType = StatementType.SOFP) with
  | some s =>
    match s.totalAssets, s.totalLiabilities, s.totalEquity with
    | some a, some l, some q => some (verifyBalanceSheet env a.current l.current q.current)
    | _, _, _ => none
  | none => none

/-- The `allResults` status aggregation of `runVerification` (the KPI counts
read only the `status` of each collected result, so the embedding collects
the statuses in the same order: castings, movements, cross-references, then
the optional balance-sheet result). -/
def allStatuses (env : GenEnv) (extraction : ExtractionResult) :
    List VerificationStatus :=
  (verifyAllCastings env extraction.castingRelationships).map (fun r => r.status)
  ++ (verifyAllMovements env extraction.movements).map (fun r => r.status)
  ++ (verifyAllCrossReferences env extraction.crossReferences).map (fun r => r.status)
  ++ (match findBalanceSheetResult env extraction with
      | some b => [b.status]
      | none => [])

/-- Embedding of `runVerification`, the main entry point. -/
def runVerification (env : GenEnv) (extraction : ExtractionResult) :
    VerificationResult :=
  let verifiedAt := env.iso
  let castingResults := verifyAllCastings env extraction.castingRelationships
  let movementResults := verifyAllMovements env extraction.movements
  let crossReferenceResults := verifyAllCrossReferences env extraction.crossReferences
  let balanceSheetResult := findBalanceSheetResult env extraction
  let s1 := pushExcs castingToException ([], 1) castingResults
  let s2 := pushExcs balanceSheetToException s1 balanceSheetResult.toList
  let s3 := pushExcs movementToException s2 movementResults
  let s4 := pushExcs crossRefToException s3 crossReferenceResults
  let exceptions := s4.1
  let statuses := allStatuses env extraction
  let totalChecks := statuses.length
  let passed := (statuses.filter (fun s => s = VerificationStatus.pass)).length
  let failed := (statuses.filter (fun s => s = VerificationStatus.fail)).length
  let warnings := (statuses.filter (fun s => s = VerificationStatus.warning)).length
  let needsReview := (statuses.filter (fun s => s = VerificationStatus.needsReview)).length
  let passRate : ℚ :=
    if totalChecks > 0 then ((jround (((passed : ℚ) / (totalChecks : ℚ)) * 100) : ℚ)) else 100
  let highSeverity := (exceptions.filter (fun e => e.severity = Severity.high)).length
  let mediumSeverity := (exceptions.filter (fun e => e.severity = Severity.medium)).length
  let lowSeverity := (exceptions.filter (fun e => e.severity = Severity.low)).length
  { kpi :=
      { totalChecks := totalChecks
        passed := passed
        failed := failed
        warnings := warnings
        needsReview := needsReview
        passRate := passRate
        exceptionsCount := exceptions.length
        highSeverity := highSeverity
        mediumSeverity := mediumSeverity
        lowSeverity := lowSeverity }
    castingResults := castingResults
    balanceSheetResult := balanceSheetResult
    movementResults := movementResults
    crossReferenceResults := crossReferenceResults
    exceptions := exceptions
    needsHumanReview := extraction.warnings
    conclusionSummary := generateConclusionSummary exceptions totalChecks passed
    conclusionItems := generateConclusionItems exceptions
    conclusionNote := generateConclusionNote balanceSheetResult passed totalChecks
    verifiedAt := verifiedAt
    verificationMethod := "deterministic_code" }

-- ============================================================================
-- Substring occurrence (used to state `the description literally embeds
-- the amount`)
-- ============================================================================

/-- A character sequence `pat` occurs contiguously inside `s`. -/
def SegIn (pat s : List Char) : Prop :=
  ∃ l r, s = l ++ pat ++ r

/-- Boolean test that `s` starts with `pat`. -/
def startsSeg : List Char → List Char → Bool
  | [], _ => true
  | _ :: _, [] => false
  | c :: cs, d :: ds => c = d && startsSeg cs ds

/-- Boolean test that `pat` occurs contiguously inside `s`. -/
def hasSeg (pat : List Char) : List Char → Bool
  | [] => startsSeg pat []
  | d :: ds => startsSeg pat (d :: ds) || hasSeg pat ds

theorem startsSeg_iff (pat s : List Char) :
    startsSeg pat s = true ↔ ∃ r, s = pat ++ r := by
  induction pat generalizing s with
  | nil => simp [startsSeg]
  | cons c cs ih =>
    cases s with
    | nil => simp [startsSeg]
    | cons d ds =>
      simp only [startsSeg, Bool.and_eq_true, decide_eq_true_eq, ih]
      constructor
      · rintro ⟨rfl, r, rfl⟩
        exact ⟨r, rfl⟩
      · rintro ⟨r, h⟩
        injection h with h1 h2
        exact ⟨h1.symm, r, h2⟩

theorem hasSeg_iff (pat s : List Char) :
    hasSeg pat s = true ↔ SegIn pat s := by
  induction s with
  | nil =>
    simp only [hasSeg, startsSeg_iff, SegIn]
    constructor
    · rintro ⟨r, h⟩
      exact ⟨[], r, by simpa using h⟩
    · rintro ⟨l, r, h⟩
      have := h.symm
      rcases List.append_eq_nil.mp (List.append_eq_nil.mp this |>.1) with ⟨h1, h2⟩
      · refine ⟨[], ?_⟩
        simp_all
  | cons d ds ih =>
    simp only [hasSeg, Bool.or_eq_true, startsSeg_iff, ih, SegIn]
    constructor
    · rintro (⟨r, h⟩ | ⟨l, r, h⟩)
      · exact ⟨[], r, by simpa using h⟩
      · exact ⟨d :: l, r, by simp [h]⟩
    · rintro ⟨l, r, h⟩
      cases l with
      | nil => exact Or.inl ⟨r, by simpa using h⟩
      | cons x xs =>
        injection h with h1 h2
        exact Or.inr ⟨xs, r, h2⟩

instance (pat s : List Char) : Decidable (SegIn pat s) :=
  decidable_of_iff (hasSeg pat s = true) (hasSeg_iff pat s)

/-- The middle block of a double append is a contiguous occurrence. -/
theorem SegIn.of_append (l pat r : List Char) : SegIn pat (l ++ pat ++ r) :=
  ⟨l, r, rfl⟩

-- ============================================================================
-- Basic numeric lemmas about the embedded primitives
-- ============================================================================

/-- An amount representable in integer cents. -/
def CentRep (q : ℚ) : Prop := ∃ n : ℤ, q = (n : ℚ) / 100

theorem jround_intCast (n : ℤ) : jround (n : ℚ) = n := by
  unfold jround
  rw [add_comm, Int.floor_add_int]
  norm_num

theorem jround_zero : jround 0 = 0 := by
  simpa using jround_intCast 0

theorem preciseSum_foldl (l : List ℚ) (z : ℤ) :
    l.foldl (fun acc num => acc + jround (num * 100)) z
      = z + (l.map (fun num => jround (num * 100))).sum := by
  induction l generalizing z with
  | nil => simp
  | cons a t ih =>
    simp only [List.foldl_cons, List.map_cons, List.sum_cons, ih]
    ring

theorem jround_centRep_mul (a : ℚ) (n : ℤ) (hn : a = (n : ℚ) / 100) :
    jround (a * 100) = n := by
  rw [hn]
  have h100 : (n : ℚ) / 100 * 100 = (n : ℚ) := by field_simp
  rw [h100, jround_intCast]

/-- On cent-representable inputs the integer-cents sum rescales to the exact
rational sum. -/
theorem centSum_eq (l : List ℚ) (h : ∀ a ∈ l, CentRep a) :
    (((l.map (fun num => jround (num * 100))).sum : ℤ) : ℚ) / 100 = l.sum := by
  induction l with
  | nil => simp
  | cons a t ih =>
    obtain ⟨n, hn⟩ := h a (List.mem_cons_self a t)
    have ht := ih (fun b hb => h b (List.mem_cons_of_mem a hb))
    have ha := jround_centRep_mul a n hn
    simp only [List.map_cons, List.sum_cons, ha, Int.cast_add, add_div, ht, List.sum_cons]
    rw [hn]

/-- On cent-representable inputs `preciseSum` is the exact sum. -/
theorem preciseSum_eq_sum_of_centRep (l : List ℚ) (h : ∀ a ∈ l, CentRep a) :
    preciseSum l = l.sum := by
  unfold preciseSum
  rw [preciseSum_foldl]
  simpa using centSum_eq l h

theorem calculateVariance_self (x : ℚ) : calculateVariance x x = 0 := by
  unfold calculateVariance
  simp [jround_zero]

theorem determineStatus_eq_pass_iff (v : ℚ) :
    determineStatus v = VerificationStatus.pass ↔ v = 0 := by
  unfold determineStatus
  by_cases h : v = 0 <;> simp [h]

-- ============================================================================
-- Generic facts about the exception-collection loop
-- ============================================================================

theorem pushExcs_nil {β : Type} (conv : β → ℕ → Option VerificationException)
    (acc : List VerificationException × ℕ) : pushExcs conv acc [] = acc := rfl

theorem pushExcs_cons {β : Type} (conv : β → ℕ → Option VerificationException)
    (acc : List VerificationException × ℕ) (r : β) (rs : List β) :
    pushExcs conv acc (r :: rs)
      = pushExcs conv
          (match conv r acc.2 with
           | some ex => (acc.1 ++ [ex], acc.2 + 1)
           | none => acc) rs := rfl

theorem pushExcs_snd {β : Type} (conv : β → ℕ → Option VerificationException)
    (fails : β → Bool) (hsome : ∀ r n, (conv r n).isSome = fails r)
    (acc : List VerificationException × ℕ) (l : List β) :
    (pushExcs conv acc l).2 = acc.2 + (l.filter fails).length := by
  induction l generalizing acc with
  | nil => simp [pushExcs_nil]
  | cons r rs ih =>
    rw [pushExcs_cons]
    cases hc : conv r acc.2 with
    | none =>
      have hf : fails r = false := by
        have := hsome r acc.2
        rw [hc] at this
        simpa using this.symm
      simp only [hc, List.filter_cons, hf, Bool.false_eq_true, if_false, ih]
    | some ex =>
      have hf : fails r = true := by
        have := hsome r acc.2
        rw [hc] at this
        simpa using this.symm
      simp only [hc, List.filter_cons, hf, if_pos, ih, List.length_cons]
      omega

theorem pushExcs_length {β : Type} (conv : β → ℕ → Option VerificationException)
    (fails : β → Bool) (hsome : ∀ r n, (conv r n).isSome = fails r)
    (acc : List VerificationException × ℕ) (l : List β) :
    (pushExcs conv acc l).1.length = acc.1.length + (l.filter fails).length := by
  induction l generalizing acc with
  | nil => simp [pushExcs_nil]
  | cons r rs ih =>
    rw [pushExcs_cons]
    cases hc : conv r acc.2 with
    | none =>
      have hf : fails r = false := by
        have := hsome r acc.2
        rw [hc] at this
        simpa using this.symm
      simp only [hc, List.filter_cons, hf, Bool.false_eq_true, if_false, ih]
    | some ex =>
      have hf : fails r = true := by
        have := hsome r acc.2
        rw [hc] at this
        simpa using this.symm
      simp only [hc, List.filter_cons, hf, if_pos, ih, List.length_cons,
        List.length_append, List.length_cons, List.length_nil]
      omega

theorem pushExcs_map {β γ : Type} (conv : β → ℕ → Option VerificationException)
    (fails : β → Bool) (g : VerificationException → γ) (gval : β → γ)
    (hsome : ∀ r n, (conv r n).isSome = fails r)
    (hg : ∀ r n ex, conv r n = some ex → g ex = gval r)
    (acc : List VerificationException × ℕ) (l : List β) :
    (pushExcs conv acc l).1.map g
      = acc.1.map g ++ (l.filter fails).map gval := by
  induction l generalizing acc with
  | nil => simp [pushExcs_nil]
  | cons r rs ih =>
    rw [pushExcs_cons]
    cases hc : conv r acc.2 with
    | none =>
      have hf : fails r = false := by
        have := hsome r acc.2
        rw [hc] at this
        simpa using this.symm
      simp only [hc, List.filter_cons, hf, Bool.false_eq_true, if_false, ih]
    | some ex =>
      have hf : fails r = true := by
        have := hsome r acc.2
        rw [hc] at this
        simpa using this.symm
      simp only [hc, List.filter_cons, hf, if_pos, ih, List.map_append,
        List.map_cons, List.map_nil, List.append_assoc, List.nil_append,
        List.singleton_append, hg r acc.2 ex hc]

theorem pushExcs_map_id {β : Type} (conv : β → ℕ → Option VerificationException)
    (fails : β → Bool)
    (hsome : ∀ r n, (conv r n).isSome = fails r)
    (hid : ∀ r n ex, conv r n = some ex → ex.id = n)
    (acc : List VerificationException × ℕ) (l : List β) :
    (pushExcs conv acc l).1.map (fun ex => ex.id)
      = acc.1.map (fun ex => ex.id) ++ List.range' acc.2 (l.filter fails).length := by
  induction l generalizing acc with
  | nil => simp [pushExcs_nil]
  | cons r rs ih =>
    rw [pushExcs_cons]
    cases hc : conv r acc.2 with
    | none =>
      have hf : fails r = false := by
        have := hsome r acc.2
        rw [hc] at this
        simpa using this.symm
      simp only [hc, List.filter_cons, hf, Bool.false_eq_true, if_false, ih]
    | some ex =>
      have hf : fails r = true := by
        have := hsome r acc.2
        rw [hc] at this
        simpa using this.symm
      simp only [hc, List.filter_cons, hf, if_pos, ih, List.map_append,
        List.map_cons, List.map_nil, List.length_cons, List.range'_succ,
        List.append_assoc, List.singleton_append, hid r acc.2 ex hc]

theorem pushExcs_mem {β : Type} (conv : β → ℕ → Option VerificationException)
    (acc : List VerificationException × ℕ) (l : List β)
    (ex : VerificationException) (hmem : ex ∈ (pushExcs conv acc l).1) :
    ex ∈ acc.1 ∨ ∃ r, r ∈ l ∧ ∃ n, conv r n = some ex := by
  induction l generalizing acc with
  | nil =>
    rw [pushExcs_nil] at hmem
    exact Or.inl hmem
  | cons r rs ih =>
    rw [pushExcs_cons] at hmem
    cases hc : conv r acc.2 with
    | none =>
      rw [hc] at hmem
      rcases ih _ hmem with h | ⟨r', hr', n, hn⟩
      · exact Or.inl h
      · exact Or.inr ⟨r', List.mem_cons_of_mem r hr', n, hn⟩
    | some e =>
      rw [hc] at hmem
      rcases ih _ hmem with h | ⟨r', hr', n, hn⟩
      · rcases List.mem_append.mp h with h' | h'
        · exact Or.inl h'
        · rcases List.mem_singleton.mp h' with rfl
          exact Or.inr ⟨r, List.mem_cons_self r rs, acc.2, hc⟩
      · exact Or.inr ⟨r', List.mem_cons_of_mem r hr', n, hn⟩

-- ============================================================================
-- Facts about the four exception converters
-- ============================================================================

theorem castingToException_isSome (r : CastingVerificationResult) (n : ℕ) :
    (castingToException r n).isSome
      = decide (r.status ≠ VerificationStatus.pass) := by
  unfold castingToException
  by_cases h : r.status = VerificationStatus.pass <;> simp [h]

theorem castingToException_some (r : CastingVerificationResult) (n : ℕ)
    (ex : VerificationException) (h : castingToException r n = some ex) :
    ex.id = n ∧ ex.relatedCheckId = r.id ∧ ex.type = ExceptionType.castingError
    ∧ ex.statedAmount = r.statedTotal ∧ ex.calculatedAmount = r.calculatedTotal
    ∧ ex.difference = r.variance
    ∧ ex.description = r.description ++ ": Components sum to "
        ++ formatRM r.calculatedTotal ++ " but stated as "
        ++ formatRM r.statedTotal := by
  unfold castingToException at h
  by_cases hp : r.status = VerificationStatus.pass
  · simp [hp] at h
  · rw [if_neg hp] at h
    injection h with h'
    subst h'
    exact ⟨rfl, rfl, rfl, rfl, rfl, rfl, rfl⟩

theorem balanceSheetToException_isSome (r : BalanceSheetVerificationResult) (n : ℕ) :
    (balanceSheetToException r n).isSome
      = decide (r.status ≠ VerificationStatus.pass) := by
  unfold balanceSheetToException
  by_cases h : r.status = VerificationStatus.pass <;> simp [h]

theorem balanceSheetToException_some (r : BalanceSheetVerificationResult) (n : ℕ)
    (ex : VerificationException) (h : balanceSheetToException r n = some ex) :
    ex.id = n ∧ ex.relatedCheckId = r.id
    ∧ ex.type = ExceptionType.balanceSheetImbalance
    ∧ ex.statedAmount = r.totalAssets
    ∧ ex.calculatedAmount = r.calculatedLiabilitiesPlusEquity
    ∧ ex.difference = r.variance
    ∧ ex.severity = Severity.high
    ∧ ex.description = "Balance sheet does not balance: Assets "
        ++ formatRM r.totalAssets ++ " ≠ Liabilities "
        ++ formatRM r.totalLiabilities ++ " + Equity "
        ++ formatRM r.totalEquity := by
  unfold balanceSheetToException at h
  by_cases hp : r.status = VerificationStatus.pass
  · simp [hp] at h
  · rw [if_neg hp] at h
    injection h with h'
    subst h'
    exact ⟨rfl, rfl, rfl, rfl, rfl, rfl, rfl, rfl⟩

theorem movementToException_isSome (r : MovementVerificationResult) (n : ℕ) :
    (movementToException r n).isSome
      = decide (r.status ≠ VerificationStatus.pass) := by
  unfold movementToException
  by_cases h : r.status = VerificationStatus.pass <;> simp [h]

theorem movementToException_some (r : MovementVerificationResult) (n : ℕ)
    (ex : VerificationException) (h : movementToException r n = some ex) :
    ex.id = n ∧ ex.relatedCheckId = r.id
    ∧ ex.type = ExceptionType.movementReconciliationError
    ∧ ex.statedAmount = r.statedClosing ∧ ex.calculatedAmount = r.calculatedClosing
    ∧ ex.difference = r.variance
    ∧ ex.description = "Movement does not reconcile: Opening "
        ++ formatRM r.opening ++ " + Additions "
        ++ formatRM r.totalAdditions ++ " - Deductions "
        ++ formatRM r.totalDeductions ++ " = "
        ++ formatRM r.calculatedClosing ++ ", but stated closing is "
        ++ formatRM r.statedClosing := by
  unfold movementToException at h
  by_cases hp : r.status = VerificationStatus.pass
  · simp [hp] at h
  · rw [if_neg hp] at h
    injection h with h'
    subst h'
    exact ⟨rfl, rfl, rfl, rfl, rfl, rfl, rfl⟩

theorem crossRefToException_isSome (r : CrossReferenceVerificationResult) (n : ℕ) :
    (crossRefToException r n).isSome
      = decide (r.status ≠ VerificationStatus.pass) := by
  unfold crossRefToException
  by_cases h : r.status = VerificationStatus.pass <;> simp [h]

theorem crossRefToException_some (r : CrossReferenceVerificationResult) (n : ℕ)
    (ex : VerificationException) (h : crossRefToException r n = some ex) :
    ex.id = n ∧ ex.relatedCheckId = r.id
    ∧ ex.type = ExceptionType.crossReferenceMismatch
    ∧ ex.statedAmount = r.statementAmount ∧ ex.calculatedAmount = r.noteAmount
    ∧ ex.difference = r.variance
    ∧ ex.description = r.noteDescription ++ ": Note shows "
        ++ formatRM r.noteAmount ++ " but statement shows "
        ++ formatRM r.statementAmount := by
  unfold crossRefToException at h
  by_cases hp : r.status = VerificationStatus.pass
  · simp [hp] at h
  · rw [if_neg hp] at h
    injection h with h'
    subst h'
    exact ⟨rfl, rfl, rfl, rfl, rfl, rfl, rfl⟩

-- ============================================================================
-- Projection lemmas for `runVerification`
-- ============================================================================

theorem runVerification_castingResults (env : GenEnv) (e : ExtractionResult) :
    (runVerification env e).castingResults
      = verifyAllCastings env e.castingRelationships := rfl

theorem runVerification_balanceSheetResult (env : GenEnv) (e : ExtractionResult) :
    (runVerification env e).balanceSheetResult = findBalanceSheetResult env e := rfl

theorem runVerification_movementResults (env : GenEnv) (e : ExtractionResult) :
    (runVerification env e).movementResults
      = verifyAllMovements env e.movements := rfl

theorem runVerification_crossReferenceResults (env : GenEnv) (e : ExtractionResult) :
    (runVerification env e).crossReferenceResults
      = verifyAllCrossReferences env e.crossReferences := rfl

theorem runVerification_exceptions (env : GenEnv) (e : ExtractionResult) :
    (runVerification env e).exceptions
      = (pushExcs crossRefToException
          (pushExcs movementToException
            (pushExcs balanceSheetToException
              (pushExcs castingToException ([], 1)
                (verifyAllCastings env e.castingRelationships))
              (findBalanceSheetResult env e).toList)
            (verifyAllMovements env e.movements))
          (verifyAllCrossReferences env e.crossReferences)).1 := rfl

theorem runVerification_totalChecks (env : GenEnv) (e : ExtractionResult) :
    (runVerification env e).kpi.totalChecks = (allStatuses env e).length := rfl

-- ============================================================================
-- Sample inputs used by witnesses and counterexamples
-- ============================================================================

/-- A fixed ambient environment for concrete evaluations. -/
def envA : GenEnv := { nowMs := 0, rand := "aaaaaa", iso := "2025-01-01T00:00:00.000Z" }

/-- A second ambient environment, differing from `envA` in the random
suffix, as a second run of the engine would. -/
def envB : GenEnv := { nowMs := 0, rand := "bbbbbb", iso := "2025-01-01T00:00:00.000Z" }

/-- A casting relationship with mismatched component arrays: two labels but
only one amount. -/
def mismatchedRel : ExtractedCastingRelationship :=
  { totalLabel := "Total assets"
    totalAmount := 800
    componentLabels := ["A", "B"]
    componentAmounts := [500]
    «section» := "SOFP" }

/-- A simple movement input. -/
def movSample : ExtractedMovement :=
  { accountName := "PPE"
    opening := 1000
    additions := [{ description := "Additions", amount := 200 }]
    deductions := [{ description := "Depreciation", amount := 50 }]
    statedClosing := 1150 }

/-- A cross-reference with none of the optional sign fields set. -/
def xrefSampleA : ExtractedCrossReference :=
  { noteRef := "Note 8"
    noteDescription := "Other Receivables"
    noteTotal := 500
    statementLineItem := "Other receivables"
    statementAmount := 480
    statementType := StatementType.SOFP }

/-- A cross-reference agreeing with `xrefSampleA` on `noteTotal` and
`statementAmount` but differing in every optional sign-convention and
mapping field. -/
def xrefSampleB : ExtractedCrossReference :=
  { noteRef := "Note 9"
    noteDescription := "Administrative Expenses"
    noteTotal := 500
    statementLineItem := "Administrative expenses"
    statementAmount := 480
    statementType := StatementType.SOCI
    isExpenseOrDeduction := some true
    signConventionNote := some SignConvention.positive
    signConventionStatement := some SignConvention.negative
    mappingConfidence := some 42
    mappingType := some MappingType.uncertain }

-- ============================================================================
-- C1
-- ============================================================================

/-- C1: for every verification result produced by the engine (casting,
balance-sheet, movement, cross-reference), `status = pass` if and only if
`variance = 0`; no result reports `pass` with nonzero variance or `fail`
with zero variance. -/
theorem statusVarianceCoupling :
    (∀ (env : GenEnv) (sectionLabel description : String)
       (components : List CastingComponent) (statedTotal : ℚ),
       ((verifyCasting env sectionLabel description components statedTotal).status
          = VerificationStatus.pass
        ↔ (verifyCasting env sectionLabel description components statedTotal).variance = 0))
    ∧ (∀ (env : GenEnv) (a l q : ℚ),
       ((verifyBalanceSheet env a l q).status = VerificationStatus.pass
        ↔ (verifyBalanceSheet env a l q).variance = 0))
    ∧ (∀ (env : GenEnv) (m : ExtractedMovement),
       ((verifyMovement env m).status = VerificationStatus.pass
        ↔ (verifyMovement env m).variance = 0))
    ∧ (∀ (env : GenEnv) (c : ExtractedCrossReference),
       ((verifyCrossReference env c).status = VerificationStatus.pass
        ↔ (verifyCrossReference env c).variance = 0)) :=
  ⟨fun _ _ _ _ _ => determineStatus_eq_pass_iff _,
   fun _ _ _ _ => determineStatus_eq_pass_iff _,
   fun _ _ => determineStatus_eq_pass_iff _,
   fun _ _ => determineStatus_eq_pass_iff _⟩

-- ============================================================================
-- C2
-- ============================================================================

/-- C2: for every casting input whose component amounts are exact cent
amounts summing exactly to the stated total, `verifyCasting` returns status
`pass` and variance exactly `0` — also on rounding-prone fractional inputs
such as `[0.1, 0.2]` against a stated total of `0.3`. -/
theorem castingExactness (env : GenEnv) (sectionLabel description : String)
    (components : List CastingComponent) (statedTotal : ℚ)
    (hc : ∀ c ∈ components, CentRep c.amount)
    (hsum : (components.map (fun c => c.amount)).sum = statedTotal) :
    (verifyCasting env sectionLabel description components statedTotal).status
      = VerificationStatus.pass
    ∧ (verifyCasting env sectionLabel description components statedTotal).variance = 0 := by
  have hps : preciseSum (components.map (fun c => c.amount)) = statedTotal := by
    rw [preciseSum_eq_sum_of_centRep]
    · exact hsum
    · intro a ha
      obtain ⟨c, hcm, rfl⟩ := List.mem_map.mp ha
      exact hc c hcm
  constructor
  · show determineStatus
      (calculateVariance (preciseSum (components.map (fun c => c.amount))) statedTotal)
      = VerificationStatus.pass
    rw [hps, calculateVariance_self]
    rfl
  · show calculateVariance (preciseSum (components.map (fun c => c.amount))) statedTotal = 0
    rw [hps, calculateVariance_self]

/-- Witness for C2 at the rounding-prone input `[0.1, 0.2]` with stated
total `0.3`. -/
theorem castingExactness_witness :
    (verifyCasting envA "SOFP" "Total calculation"
      [{ label := "A", amount := (0.1 : ℚ) }, { label := "B", amount := (0.2 : ℚ) }]
      (0.3 : ℚ)).status = VerificationStatus.pass
    ∧ (verifyCasting envA "SOFP" "Total calculation"
      [{ label := "A", amount := (0.1 : ℚ) }, { label := "B", amount := (0.2 : ℚ) }]
      (0.3 : ℚ)).variance = 0 :=
  castingExactness envA "SOFP" "Total calculation" _ _
    (by
      intro c hcm
      simp only [List.mem_cons, List.not_mem_nil, or_false] at hcm
      rcases hcm with rfl | rfl
      · exact ⟨10, by norm_num⟩
      · exact ⟨20, by norm_num⟩)
    (by norm_num)

-- ============================================================================
-- C4
-- ============================================================================

/-- C4: every exception generated from a failing balance-equation check has
severity `high`, regardless of the variance magnitude, overriding the
magnitude-based severity table. -/
theorem balanceSheetExceptionAlwaysHigh (r : BalanceSheetVerificationResult)
    (n : ℕ) (ex : VerificationException)
    (h : balanceSheetToException r n = some ex) : ex.severity = Severity.high :=
  ((balanceSheetToException_some r n ex h).2.2.2.2.2.2).1

unseal Rat.add Rat.mul Rat.inv Rat.sub Rat.ofScientific in
/-- Witness for C4 at a balance-sheet check failing with variance exactly
`1`. -/
theorem balanceSheetExceptionAlwaysHigh_witness :
    (balanceSheetToException (verifyBalanceSheet envA 1000 999 0) 1).map
        (fun ex => ex.severity) = some Severity.high
    ∧ (verifyBalanceSheet envA 1000 999 0).variance = 1 := by
  constructor
  · cases hx : balanceSheetToException (verifyBalanceSheet envA 1000 999 0) 1 with
    | none => exact absurd hx (by decide)
    | some ex =>
      simpa [hx] using balanceSheetExceptionAlwaysHigh _ 1 ex hx
  · decide

-- ============================================================================
-- C6 (corrected)
-- ============================================================================

/-- Erase the one field of a movement result that the data model documents
as a timestamp. -/
def stripMovementTimestamp (r : MovementVerificationResult) :
    MovementVerificationResult :=
  { r with timestamp := "" }

/-- Erase both the `timestamp` field and the `id` field (which embeds
`Date.now()` and a random suffix but is documented only as a unique id). -/
def stripMovementIdAndTimestamp (r : MovementVerificationResult) :
    MovementVerificationResult :=
  { r with id := "", timestamp := "" }

unseal Rat.add Rat.mul Rat.inv Rat.sub Rat.ofScientific in
/-- Counterexample to C6 as stated: two runs of `verifyMovement` on the same
input (same millisecond, different `Math.random()` draw) differ outside the
documented timestamp field, because the `id` field embeds the random
suffix. -/
theorem movementIdempotence_counterexample :
    ¬ (stripMovementTimestamp (verifyMovement envA movSample)
       = stripMovementTimestamp (verifyMovement envB movSample)) := by
  decide

/-- C6 (amended): `verifyMovement` run twice on the same input yields
identical output in every field except the generated `id` (which embeds
`Date.now()` and a random suffix) and the `timestamp` metadata field; all
verification content depends only on the input. -/
theorem movementIdempotence (env1 env2 : GenEnv) (m : ExtractedMovement) :
    stripMovementIdAndTimestamp (verifyMovement env1 m)
      = stripMovementIdAndTimestamp (verifyMovement env2 m) := rfl

-- ============================================================================
-- C9 (corrected)
-- ============================================================================

unseal Rat.add Rat.mul Rat.inv Rat.sub Rat.ofScientific in
/-- Counterexample to C9 as stated: on a casting relationship with two
labels but one amount (stated total `800`, single component `500`), the
check is not skipped — one result is produced, counted and failed — and its
variance `300` is neither `0` nor the full stated amount `800`, so the check
is not treated as a maximal-variance failure either. -/
theorem mismatchedCasting_counterexample :
    (verifyAllCastings envA [mismatchedRel]).map (fun r => (r.variance, r.status))
      = [((300 : ℚ), VerificationStatus.fail)]
    ∧ (300 : ℚ) ≠ 0 ∧ (300 : ℚ) ≠ |mismatchedRel.totalAmount| := by
  refine ⟨by decide, by norm_num, by decide⟩

/-- C9 (amended): a casting relationship with mismatched component array
lengths never aborts the run: `verifyAllCastings` is total, produces exactly
one result per record, and each result depends only on its own record, a
missing component amount being read as `0` and surplus amounts being
ignored; the malformed record therefore fails deterministically with the
resulting variance while all other records are verified unchanged. -/
theorem mismatchedCastingGracefulDegradation (env : GenEnv)
    (rels : List ExtractedCastingRelationship) (i : ℕ)
    (h : i < rels.length) (h2 : i < (verifyAllCastings env rels).length) :
    (verifyAllCastings env rels).length = rels.length
    ∧ (verifyAllCastings env rels)[i]
      = verifyCasting env (rels[i]).«section»
          ((rels[i]).totalLabel ++ " calculation")
          (castingComponents (rels[i])) (rels[i]).totalAmount := by
  constructor
  · simp [verifyAllCastings]
  · simp [verifyAllCastings]

/-- Witness for C9 (amended) at the mismatched sample record. -/
theorem mismatchedCastingGracefulDegradation_witness :
    (verifyAllCastings envA [mismatchedRel]).length = [mismatchedRel].length
    ∧ (verifyAllCastings envA [mismatchedRel]).get ⟨0, by decide⟩
      = verifyCasting envA ([mismatchedRel].get ⟨0, by decide⟩).«section»
          (([mismatchedRel].get ⟨0, by decide⟩).totalLabel ++ " calculation")
          (castingComponents ([mismatchedRel].get ⟨0, by decide⟩))
          ([mismatchedRel].get ⟨0, by decide⟩).totalAmount :=
  mismatchedCastingGracefulDegradation envA [mismatchedRel] 0 (by decide) (by decide)

-- ============================================================================
-- C10
-- ============================================================================

/-- C10: the variance and status of `verifyCrossReference` depend only on
`noteTotal` and `statementAmount`: two inputs agreeing on those two fields
produce the same variance and status, whatever their
`isExpenseOrDeduction`, sign-convention, mapping-confidence or mapping-type
fields — no sign-aware comparison is applied. -/
theorem crossReferenceDependsOnlyOnAmounts (env1 env2 : GenEnv)
    (c1 c2 : ExtractedCrossReference)
    (hnote : c1.noteTotal = c2.noteTotal)
    (hstmt : c1.statementAmount = c2.statementAmount) :
    (verifyCrossReference env1 c1).variance = (verifyCrossReference env2 c2).variance
    ∧ (verifyCrossReference env1 c1).status = (verifyCrossReference env2 c2).status := by
  constructor
  · show calculateVariance c1.noteTotal c1.statementAmount
      = calculateVariance c2.noteTotal c2.statementAmount
    rw [hnote, hstmt]
  · show determineStatus (calculateVariance c1.noteTotal c1.statementAmount)
      = determineStatus (calculateVariance c2.noteTotal c2.statementAmount)
    rw [hnote, hstmt]

/-- Witness for C10 on two records that differ in every optional
sign-convention and mapping field. -/
theorem crossReferenceDependsOnlyOnAmounts_witness :
    (verifyCrossReference envA xrefSampleA).variance
      = (verifyCrossReference envB xrefSampleB).variance
    ∧ (verifyCrossReference envA xrefSampleA).status
      = (verifyCrossReference envB xrefSampleB).status :=
  crossReferenceDependsOnlyOnAmounts envA envB xrefSampleA xrefSampleB rfl rfl

-- ============================================================================
-- C3
-- ============================================================================

/-- C3: in the output of `runVerification`, exceptions correspond exactly,
in order, to the non-passing checks: the related-check ids of the exception
list are precisely the ids of the failing casting results, then the failing
balance-sheet result (when present), then the failing movement results,
then the failing cross-reference results — every non-passing result yields
exactly one exception and passing results yield none. -/
theorem exceptionsMatchFailingChecks (env : GenEnv) (e : ExtractionResult) :
    (runVerification env e).exceptions.map (fun ex => ex.relatedCheckId)
      = ((runVerification env e).castingResults.filter
            (fun r => decide (r.status ≠ VerificationStatus.pass))).map (fun r => r.id)
        ++ ((runVerification env e).balanceSheetResult.toList.filter
            (fun r => decide (r.status ≠ VerificationStatus.pass))).map (fun r => r.id)
        ++ ((runVerification env e).movementResults.filter
            (fun r => decide (r.status ≠ VerificationStatus.pass))).map (fun r => r.id)
        ++ ((runVerification env e).crossReferenceResults.filter
            (fun r => decide (r.status ≠ VerificationStatus.pass))).map (fun r => r.id) := by
  rw [runVerification_exceptions, runVerification_castingResults,
    runVerification_balanceSheetResult, runVerification_movementResults,
    runVerification_crossReferenceResults]
  rw [pushExcs_map crossRefToException _ _ (fun r => r.id) crossRefToException_isSome
      (fun r n ex h => (crossRefToException_some r n ex h).2.1)]
  rw [pushExcs_map movementToException _ _ (fun r => r.id) movementToException_isSome
      (fun r n ex h => (movementToException_some r n ex h).2.1)]
  rw [pushExcs_map balanceSheetToException _ _ (fun r => r.id) balanceSheetToException_isSome
      (fun r n ex h => (balanceSheetToException_some r n ex h).2.1)]
  rw [pushExcs_map castingToException _ _ (fun r => r.id) castingToException_isSome
      (fun r n ex h => (castingToException_some r n ex h).2.1)]
  simp [List.append_assoc]

-- ============================================================================
-- C7
-- ============================================================================

theorem range'_append_one (s m n : ℕ) :
    List.range' s m ++ List.range' (s + m) n = List.range' s (m + n) := by
  have h := List.range'_append s m n 1
  simp only [one_mul, Nat.add_comm n m] at h
  simpa using h

/-- One composite step of the exception-id chain: if the accumulator already
holds ids `1..k` and its counter is `1 + k`, collecting one more result list
extends the ids to `1..k + (number of failing results)`. -/
theorem pushExcs_ids_step {β : Type} (conv : β → ℕ → Option VerificationException)
    (fails : β → Bool)
    (hsome : ∀ r n, (conv r n).isSome = fails r)
    (hid : ∀ r n ex, conv r n = some ex → ex.id = n)
    (acc : List VerificationException × ℕ) (l : List β) (k : ℕ)
    (hacc_ids : acc.1.map (fun ex => ex.id) = List.range' 1 k)
    (hacc_snd : acc.2 = 1 + k) :
    (pushExcs conv acc l).1.map (fun ex => ex.id)
      = List.range' 1 (k + (l.filter fails).length)
    ∧ (pushExcs conv acc l).2 = 1 + (k + (l.filter fails).length) := by
  constructor
  · rw [pushExcs_map_id conv fails hsome hid acc l, hacc_ids, hacc_snd,
      range'_append_one]
  · rw [pushExcs_snd conv fails hsome acc l, hacc_snd]
    omega

theorem castingFailsLength_env (env1 env2 : GenEnv)
    (rels : List ExtractedCastingRelationship) :
    ((verifyAllCastings env1 rels).filter
        (fun r => decide (r.status ≠ VerificationStatus.pass))).length
      = ((verifyAllCastings env2 rels).filter
        (fun r => decide (r.status ≠ VerificationStatus.pass))).length := by
  unfold verifyAllCastings
  rw [List.filter_map, List.filter_map, List.length_map, List.length_map]
  rfl

theorem movementFailsLength_env (env1 env2 : GenEnv)
    (movements : List ExtractedMovement) :
    ((verifyAllMovements env1 movements).filter
        (fun r => decide (r.status ≠ VerificationStatus.pass))).length
      = ((verifyAllMovements env2 movements).filter
        (fun r => decide (r.status ≠ VerificationStatus.pass))).length := by
  unfold verifyAllMovements
  rw [List.filter_map, List.filter_map, List.length_map, List.length_map]
  rfl

theorem crossRefFailsLength_env (env1 env2 : GenEnv)
    (crossReferences : List ExtractedCrossReference) :
    ((verifyAllCrossReferences env1 crossReferences).filter
        (fun r => decide (r.status ≠ VerificationStatus.pass))).length
      = ((verifyAllCrossReferences env2 crossReferences).filter
        (fun r => decide (r.status ≠ VerificationStatus.pass))).length := by
  unfold verifyAllCrossReferences
  rw [List.filter_map, List.filter_map, List.length_map, List.length_map]
  rfl

theorem bsFailsLength_env (env1 env2 : GenEnv) (e : ExtractionResult) :
    ((findBalanceSheetResult env1 e).toList.filter
        (fun r => decide (r.status ≠ VerificationStatus.pass))).length
      = ((findBalanceSheetResult env2 e).toList.filter
        (fun r => decide (r.status ≠ VerificationStatus.pass))).length := by
  unfold findBalanceSheetResult
  cases e.statements.find? (fun s => s.statementType = StatementType.SOFP) with
  | none => rfl
  | some s =>
    cases hA : s.totalAssets with
    | none => simp [hA]
    | some a =>
      cases hL : s.totalLiabilities with
      | none => simp [hA, hL]
      | some l =>
        cases hQ : s.totalEquity with
        | none => simp [hA, hL, hQ]
        | some q =>
          simp only [hA, hL, hQ, Option.toList_some, List.filter_singleton]
          have hst : (verifyBalanceSheet env1 a.current l.current q.current).status
              = (verifyBalanceSheet env2 a.current l.current q.current).status := rfl
          rw [hst]
          cases decide ((verifyBalanceSheet env2 a.current l.current q.current).status
              ≠ VerificationStatus.pass) <;> simp

/-- The exception ids of a run are exactly `1..n` in list order. -/
theorem runVerification_exceptions_map_ids (env : GenEnv) (e : ExtractionResult) :
    (runVerification env e).exceptions.map (fun ex => ex.id)
      = List.range' 1
          (((verifyAllCastings env e.castingRelationships).filter
              (fun r => decide (r.status ≠ VerificationStatus.pass))).length
            + ((findBalanceSheetResult env e).toList.filter
              (fun r => decide (r.status ≠ VerificationStatus.pass))).length
            + ((verifyAllMovements env e.movements).filter
              (fun r => decide (r.status ≠ VerificationStatus.pass))).length
            + ((verifyAllCrossReferences env e.crossReferences).filter
              (fun r => decide (r.status ≠ VerificationStatus.pass))).length) := by
  rw [runVerification_exceptions]
  have h1 := pushExcs_ids_step castingToException _ castingToException_isSome
    (fun r n ex h => (castingToException_some r n ex h).1) ([], 1)
    (verifyAllCastings env e.castingRelationships) 0 rfl rfl
  have h2 := pushExcs_ids_step balanceSheetToException _ balanceSheetToException_isSome
    (fun r n ex h => (balanceSheetToException_some r n ex h).1) _
    (findBalanceSheetResult env e).toList _ h1.1 h1.2
  have h3 := pushExcs_ids_step movementToException _ movementToException_isSome
    (fun r n ex h => (movementToException_some r n ex h).1) _
    (verifyAllMovements env e.movements) _ h2.1 h2.2
  have h4 := pushExcs_ids_step crossRefToException _ crossRefToException_isSome
    (fun r n ex h => (crossRefToException_some r n ex h).1) _
    (verifyAllCrossReferences env e.crossReferences) _ h3.1 h3.2
  rw [h4.1]
  congr 1
  omega

/-- C7: exception ids form a single global monotonically increasing integer
sequence `1, 2, ..., n` across all exception types; the exceptions are
assigned in the order castings, then balance sheet, then movements, then
cross-references (their type tags appear grouped in exactly that order), and
the id sequence is the same on every run over identical input. -/
theorem exceptionIdsGloballySequential (env env2 : GenEnv) (e : ExtractionResult) :
    (runVerification env e).exceptions.map (fun ex => ex.id)
      = List.range' 1 (runVerification env e).exceptions.length
    ∧ (runVerification env e).exceptions.map (fun ex => ex.type)
      = List.replicate ((runVerification env e).castingResults.filter
            (fun r => decide (r.status ≠ VerificationStatus.pass))).length
          ExceptionType.castingError
        ++ List.replicate ((runVerification env e).balanceSheetResult.toList.filter
            (fun r => decide (r.status ≠ VerificationStatus.pass))).length
          ExceptionType.balanceSheetImbalance
        ++ List.replicate ((runVerification env e).movementResults.filter
            (fun r => decide (r.status ≠ VerificationStatus.pass))).length
          ExceptionType.movementReconciliationError
        ++ List.replicate ((runVerification env e).crossReferenceResults.filter
            (fun r => decide (r.status ≠ VerificationStatus.pass))).length
          ExceptionType.crossReferenceMismatch
    ∧ (runVerification env e).exceptions.map (fun ex => ex.id)
      = (runVerification env2 e).exceptions.map (fun ex => ex.id) := by
  have hids := runVerification_exceptions_map_ids env e
  have hlen : (runVerification env e).exceptions.length
      = ((verifyAllCastings env e.castingRelationships).filter
            (fun r => decide (r.status ≠ VerificationStatus.pass))).length
        + ((findBalanceSheetResult env e).toList.filter
            (fun r => decide (r.status ≠ VerificationStatus.pass))).length
        + ((verifyAllMovements env e.movements).filter
            (fun r => decide (r.status ≠ VerificationStatus.pass))).length
        + ((verifyAllCrossReferences env e.crossReferences).filter
            (fun r => decide (r.status ≠ VerificationStatus.pass))).length := by
    have h := congrArg List.length hids
    simpa using h
  refine ⟨?_, ?_, ?_⟩
  · rw [hids, hlen]
  · rw [runVerification_exceptions, runVerification_castingResults,
      runVerification_balanceSheetResult, runVerification_movementResults,
      runVerification_crossReferenceResults]
    rw [pushExcs_map crossRefToException _ _
        (fun _ => ExceptionType.crossReferenceMismatch) crossRefToException_isSome
        (fun r n ex h => (crossRefToException_some r n ex h).2.2.1)]
    rw [pushExcs_map movementToException _ _
        (fun _ => ExceptionType.movementReconciliationError) movementToException_isSome
        (fun r n ex h => (movementToException_some r n ex h).2.2.1)]
    rw [pushExcs_map balanceSheetToException _ _
        (fun _ => ExceptionType.balanceSheetImbalance) balanceSheetToException_isSome
        (fun r n ex h => (balanceSheetToException_some r n ex h).2.2.1)]
    rw [pushExcs_map castingToException _ _
        (fun _ => ExceptionType.castingError) castingToException_isSome
        (fun r n ex h => (castingToException_some r n ex h).2.2.1)]
    simp [List.map_const', List.append_assoc]
  · rw [hids, runVerification_exceptions_map_ids env2 e,
      castingFailsLength_env env env2, bsFailsLength_env env env2,
      movementFailsLength_env env env2, crossRefFailsLength_env env env2]

-- ============================================================================
-- C5
-- ============================================================================

/-- An extraction with no SOFP statement at all but one (failing) casting
relationship. -/
def noSofpSample : ExtractionResult :=
  { companyName := "ACME Sdn Bhd"
    financialYearEnd := "31 December 2024"
    reportingCurrency := "RM"
    extractedAt := "2025-01-01T00:00:00.000Z"
    statements := []
    movements := []
    crossReferences := []
    castingRelationships := [mismatchedRel]
    warnings := []
    overallConfidence := 90 }

/-- C5: when the extraction has no SOFP statement, or its SOFP statements
lack any of the three totals, `runVerification` returns `balanceSheetResult`
none, the skipped balance check is not counted in the KPI totals, and no
balance-sheet exception is produced. -/
theorem conditionalBalanceCheck (env : GenEnv) (e : ExtractionResult)
    (hno : ∀ s ∈ e.statements, s.statementType = StatementType.SOFP →
      s.totalAssets = none ∨ s.totalLiabilities = none ∨ s.totalEquity = none) :
    (runVerification env e).balanceSheetResult = none
    ∧ (runVerification env e).kpi.totalChecks
        = e.castingRelationships.length + e.movements.length + e.crossReferences.length
    ∧ ∀ ex ∈ (runVerification env e).exceptions,
        ex.type ≠ ExceptionType.balanceSheetImbalance := by
  have hnone : findBalanceSheetResult env e = none := by
    unfold findBalanceSheetResult
    cases hf : e.statements.find? (fun s => s.statementType = StatementType.SOFP) with
    | none => rfl
    | some s =>
      have hmem : s ∈ e.statements := List.mem_of_find?_eq_some hf
      have hty : s.statementType = StatementType.SOFP := by
        have := List.find?_some hf
        simpa using this
      rcases hno s hmem hty with h | h | h <;>
        cases hA : s.totalAssets <;> cases hL : s.totalLiabilities <;>
          cases hQ : s.totalEquity <;> simp_all
  refine ⟨?_, ?_, ?_⟩
  · rw [runVerification_balanceSheetResult, hnone]
  · rw [runVerification_totalChecks]
    unfold allStatuses
    rw [hnone]
    simp [verifyAllCastings, verifyAllMovements, verifyAllCrossReferences,
      Nat.add_assoc]
  · intro ex hmem
    rw [runVerification_exceptions, hnone] at hmem
    simp only [Option.toList_none] at hmem
    rcases pushExcs_mem _ _ _ ex hmem with h | ⟨r, hr, n, hconv⟩
    · rcases pushExcs_mem _ _ _ ex h with h2 | ⟨r, hr, n, hconv⟩
      · rw [pushExcs_nil] at h2
        rcases pushExcs_mem _ _ _ ex h2 with h3 | ⟨r, hr, n, hconv⟩
        · simp at h3
        · rw [(castingToException_some r n ex hconv).2.2.1]
          decide
      · rw [(movementToException_some r n ex hconv).2.2.1]
        decide
    · rw [(crossRefToException_some r n ex hconv).2.2.1]
      decide

/-- Witness for C5 at an extraction with no statements and one failing
casting check. -/
theorem conditionalBalanceCheck_witness :
    (runVerification envA noSofpSample).balanceSheetResult = none
    ∧ (runVerification envA noSofpSample).kpi.totalChecks
        = noSofpSample.castingRelationships.length + noSofpSample.movements.length
          + noSofpSample.crossReferences.length
    ∧ ∀ ex ∈ (runVerification envA noSofpSample).exceptions,
        ex.type ≠ ExceptionType.balanceSheetImbalance :=
  conditionalBalanceCheck envA noSofpSample
    (by intro s hs; simp [noSofpSample] at hs)

-- ============================================================================
-- C8 (corrected)
-- ============================================================================

/-- C8 (amended): every generated exception's description literally embeds
the formatted stated amount; every non-balance-sheet exception's description
also literally embeds the formatted calculated amount (a balance-sheet
description instead spells out assets, liabilities and equity); the
difference is carried in the structured `difference` field, not embedded in
the description text. -/
theorem exceptionDescriptionsEmbedAmounts (env : GenEnv) (e : ExtractionResult)
    (ex : VerificationException) (hmem : ex ∈ (runVerification env e).exceptions) :
    SegIn (formatRM ex.statedAmount).data ex.description.data
    ∧ (ex.type ≠ ExceptionType.balanceSheetImbalance →
        SegIn (formatRM ex.calculatedAmount).data ex.description.data) := by
  rw [runVerification_exceptions] at hmem
  rcases pushExcs_mem _ _ _ ex hmem with h | ⟨r, hr, n, hconv⟩
  · rcases pushExcs_mem _ _ _ ex h with h2 | ⟨r, hr, n, hconv⟩
    · rcases pushExcs_mem _ _ _ ex h2 with h3 | ⟨r, hr, n, hconv⟩
      · rcases pushExcs_mem _ _ _ ex h3 with h4 | ⟨r, hr, n, hconv⟩
        · simp at h4
        · -- casting exception
          obtain ⟨hid, hrel, htype, hstated, hcalc, hdiff, hdesc⟩ :=
            castingToException_some r n ex hconv
          constructor
          · rw [hstated, hdesc]
            refine ⟨(r.description ++ ": Components sum to "
              ++ formatRM r.calculatedTotal ++ " but stated as ").data, [], ?_⟩
            simp [String.data_append, List.append_assoc]
          · intro _
            rw [hcalc, hdesc]
            refine ⟨(r.description ++ ": Components sum to ").data,
              (" but stated as " ++ formatRM r.statedTotal).data, ?_⟩
            simp [String.data_append, List.append_assoc]
      · -- balance-sheet exception
        obtain ⟨hid, hrel, htype, hstated, hcalc, hdiff, hsev, hdesc⟩ :=
          balanceSheetToException_some r n ex hconv
        constructor
        · rw [hstated, hdesc]
          refine ⟨("Balance sheet does not balance: Assets ").data,
            (" ≠ Liabilities " ++ formatRM r.totalLiabilities ++ " + Equity "
              ++ formatRM r.totalEquity).data, ?_⟩
          simp [String.data_append, List.append_assoc]
        · intro hne
          exact absurd htype hne
    · -- movement exception
      obtain ⟨hid, hrel, htype, hstated, hcalc, hdiff, hdesc⟩ :=
        movementToException_some r n ex hconv
      constructor
      · rw [hstated, hdesc]
        refine ⟨("Movement does not reconcile: Opening " ++ formatRM r.opening
          ++ " + Additions " ++ formatRM r.totalAdditions ++ " - Deductions "
          ++ formatRM r.totalDeductions ++ " = " ++ formatRM r.calculatedClosing
          ++ ", but stated closing is ").data, [], ?_⟩
        simp [String.data_append, List.append_assoc]
      · intro _
        rw [hcalc, hdesc]
        refine ⟨("Movement does not reconcile: Opening " ++ formatRM r.opening
          ++ " + Additions " ++ formatRM r.totalAdditions ++ " - Deductions "
          ++ formatRM r.totalDeductions ++ " = ").data,
          (", but stated closing is " ++ formatRM r.statedClosing).data, ?_⟩
        simp [String.data_append, List.append_assoc]
  · -- cross-reference exception
    obtain ⟨hid, hrel, htype, hstated, hcalc, hdiff, hdesc⟩ :=
      crossRefToException_some r n ex hconv
    constructor
    · rw [hstated, hdesc]
      refine ⟨(r.noteDescription ++ ": Note shows " ++ formatRM r.noteAmount
        ++ " but statement shows ").data, [], ?_⟩
      simp [String.data_append, List.append_assoc]
    · intro _
      rw [hcalc, hdesc]
      refine ⟨(r.noteDescription ++ ": Note shows ").data,
        (" but statement shows " ++ formatRM r.statementAmount).data, ?_⟩
      simp [String.data_append, List.append_assoc]

/-- The exception generated by `runVerification` on `noSofpSample`, written
out literally. -/
def sampleCastingException : VerificationException :=
  { id := 1
    type := ExceptionType.castingError
    location := "SOFP"
    description := "Total assets calculation: Components sum to RM 500 but stated as RM 800"
    statedAmount := 800
    calculatedAmount := 500
    difference := 300
    severity := Severity.low
    recommendation := "Verify the arithmetic in the source document and correct if necessary."
    relatedCheckId := "cast_0_aaaaaa" }

unseal Rat.add Rat.mul Rat.inv Rat.sub Rat.ofScientific in
/-- Counterexample to C8 as stated: the exception generated for a failing
casting check embeds the stated and calculated amounts in its description
but not their difference — the formatted difference `RM 300` does not occur
anywhere in the description text. -/
theorem exceptionDescription_counterexample :
    sampleCastingException ∈ (runVerification envA noSofpSample).exceptions
    ∧ ¬ SegIn (formatRM sampleCastingException.difference).data
        sampleCastingException.description.data := by
  exact ⟨by decide, by decide⟩

unseal Rat.add Rat.mul Rat.inv Rat.sub Rat.ofScientific in
/-- Witness for C8 (amended) at the concrete generated exception. -/
theorem exceptionDescriptionsEmbedAmounts_witness :
    SegIn (formatRM sampleCastingException.statedAmount).data
      sampleCastingException.description.data
    ∧ (sampleCastingException.type ≠ ExceptionType.balanceSheetImbalance →
        SegIn (formatRM sampleCastingException.calculatedAmount).data
          sampleCastingException.description.data) :=
  exceptionDescriptionsEmbedAmounts envA noSofpSample sampleCastingException (by decide)
